import Mathlib

/-!
# Verification of the ai-reader conversational orchestration core

A shallow embedding of the parts of the `ai-reader` repository that the
frozen claims talk about, together with theorems settling each claim.

Embedded components (file of origin in parentheses):
* the streaming tool-call reassembler `ToolCallStreamManager` (src/ai_utils.rs);
* the tool registry `ToolManager` and its batch dispatch (src/ai_utils.rs);
* the per-turn stream processing loop of `TeacherAgent::input` (src/teacher.rs);
* chapter progress merging `ChapterProgress::merge`
  (src/teacher/messages/progress.rs);
* the bounded conversation window `MessagesManager` (src/teacher/messages.rs).

Modelling conventions:
* Rust `HashMap` / `BTreeMap` / `BTreeSet` state is modelled by association
  lists, with insertion functions translated from the documented semantics of
  the corresponding Rust collection operation.
* Fallible operations return their final state together with an optional
  error; external effects, namely SQLite writes and reads and LLM requests,
  are modelled by explicit parameters that describe the outcome of the
  effect, since their results are inputs to the control flow under
  verification.
* Machine integers (`usize`) are modelled as `Nat`.  Where the source
  performs a subtraction that can underflow, the model makes the underflow
  explicit: the debug-build panic is modelled as the distinguished error
  `Err.usizeUnderflow`, and the release-build wrap-around of the subtraction
  is modelled by `wrappingSub` below.  Additions of realistic token counts
  cannot reach 2 to the 64 and are modelled as plain `Nat` addition.
* `MessagesManager` in src/teacher/messages.rs measures messages with
  `llm_fn::token_count` / `llm_fn::message_token_count`, which are not part
  of the sources under src/ (the src/llm_fn.rs present defines neither).
  Modelled from the spec: token accounting is "a cheap
  proportional-to-length estimate, a simple function of textual content
  length"; no property under verification depends on the concrete estimate,
  so the message type `M` and the estimate `tok : M → Nat` are parameters
  and every theorem about the window holds for all of them.
-/

set_option autoImplicit false

namespace AiReader

/-! ## Streaming Call Reassembler (src/ai_utils.rs, lines 295-348)

`async_openai` data types, reduced to the fields the source reads or writes.
The `r#type` fields of the Rust structs are constant tags and are omitted. -/

/-- Rust `async_openai::types::FunctionCall`: the completed name/arguments pair of
a tool call. -/
structure FunctionCall where
  name : String
  arguments : String
deriving DecidableEq

/-- Rust `async_openai::types::ChatCompletionMessageToolCall`: one finished tool
call as produced by the model. -/
structure ChatCompletionMessageToolCall where
  id : String
  function : FunctionCall
deriving DecidableEq

/-- Rust `async_openai::types::FunctionCallStream`: the optional name/argument
fragment carried by one streamed chunk. -/
structure FunctionCallStream where
  name : Option String
  arguments : Option String
deriving DecidableEq

/-- Rust `async_openai::types::ChatCompletionMessageToolCallChunk`: one streamed
tool-call fragment, keyed by the slot `index`. -/
structure ChatCompletionMessageToolCallChunk where
  index : Nat
  id : Option String
  function : Option FunctionCallStream
deriving DecidableEq

/-- Rust `ToolCallStreamManager(HashMap<u32, ChatCompletionMessageToolCall>)`,
modelled as an association list from slot index to the in-progress call.
The Rust `HashMap` holds at most one entry per key; all operations below
preserve that invariant and only ever use the first entry for a key. -/
abbrev ToolCallStreamManager := List (Nat × ChatCompletionMessageToolCall)

/-- Rust `ToolCallStreamManager::new`. -/
def ToolCallStreamManager.new : ToolCallStreamManager := []

/-- Rust `ToolCallStreamManager::merge_chunk` (src/ai_utils.rs lines 302-336).
On an occupied slot, any incoming argument text is appended to the stored
argument buffer (the chunk's id and name, if any, are ignored).  On a vacant
slot the chunk must carry an id, a name, and an initial argument string; a
chunk missing any of these is discarded with an error log, modelled as
returning the state unchanged. -/
def ToolCallStreamManager.merge_chunk (st : ToolCallStreamManager)
    (chunk : ChatCompletionMessageToolCallChunk) : ToolCallStreamManager :=
  match st.lookup chunk.index with
  | some _ =>
    match chunk.function with
    | some ⟨_, some arguments⟩ =>
      st.map fun e =>
        if e.1 = chunk.index then
          (e.1, { e.2 with
            function := { e.2.function with
              arguments := e.2.function.arguments ++ arguments } })
        else e
    | _ => st
  | none =>
    match chunk.id, chunk.function with
    | some id, some ⟨some name, some arguments⟩ =>
      st ++ [(chunk.index, ⟨id, ⟨name, arguments⟩⟩)]
    | _, _ => st

/-- Rust `ToolCallStreamManager::merge_chunks` (src/ai_utils.rs lines 337-344). -/
def ToolCallStreamManager.merge_chunks (st : ToolCallStreamManager)
    (chunks : List ChatCompletionMessageToolCallChunk) : ToolCallStreamManager :=
  chunks.foldl ToolCallStreamManager.merge_chunk st

/-- Rust `ToolCallStreamManager::get_tool_calls` (src/ai_utils.rs lines 345-347):
drain the map into the list of completed calls. -/
def ToolCallStreamManager.get_tool_calls (st : ToolCallStreamManager) :
    List ChatCompletionMessageToolCall :=
  st.map Prod.snd

/-- A chunk is self-sufficient when it carries an id, a name and an initial
argument string; this is what the vacant-slot arm of `merge_chunk` pattern
matches on. -/
def ChatCompletionMessageToolCallChunk.isSelfSufficient
    (chunk : ChatCompletionMessageToolCallChunk) : Bool :=
  chunk.id.isSome &&
    match chunk.function with
    | some f => f.name.isSome && f.arguments.isSome
    | none => false

/-! ## Tool Registry (src/ai_utils.rs, lines 163-219)

A registered tool is reduced to its type-erased entry point
`ToolDyn::call : String -> Result<String>`; names are the `BTreeMap` keys.
Tool invocations are spawned as one task per call and joined in order; since
every task's body is the pure function application modelled here, the join
is modelled as returning the function's result (a join error, i.e. an
aborted task, is a scheduler event outside this embedding). -/

/-- Rust `async_openai::types::ChatCompletionRequestToolMessage`: a tool-result
message paired with the id of the call it answers. -/
structure ChatCompletionRequestToolMessage where
  content : String
  tool_call_id : String
deriving DecidableEq

/-- Rust `ToolManager`: the name-to-implementation map, with each implementation
erased to its `ToolDyn::call` function returning either a serialized output
or an error string. -/
abbrev ToolManager := List (String × (String → Except String String))

/-- Rust `ToolManager::call` (src/ai_utils.rs lines 180-218).  First loop: for
each call, a registered name spawns the tool invocation and records the
handle next to the call id, while an unregistered name immediately pushes a
"Tool not found" result message.  Second loop: each handle's result is
pushed as a result message, an `Err` from the tool becoming the message
text. -/
def ToolManager.call (tm : ToolManager)
    (calls : List ChatCompletionMessageToolCall) :
    List ChatCompletionRequestToolMessage :=
  let start : List (String × Except String String) ×
      List ChatCompletionRequestToolMessage := ([], [])
  let spawned := calls.foldl (fun acc call =>
    match tm.lookup call.function.name with
    | some tool => (acc.1 ++ [(call.id, tool call.function.arguments)], acc.2)
    | none => (acc.1, acc.2 ++ [⟨"Tool not found", call.id⟩])) start
  spawned.1.foldl (fun outputs handle =>
    match handle.2 with
    | Except.ok output => outputs ++ [⟨output, handle.1⟩]
    | Except.error e => outputs ++ [⟨e, handle.1⟩]) spawned.2

/-- A concrete registered tool used by the dispatch witness. -/
def echoTool : String → Except String String :=
  fun a => Except.ok (a ++ "!")

/-! ## Streamed model turn (src/teacher.rs, lines 68-140)

The body of `TeacherAgent::input` that consumes one streaming response:
content deltas are forwarded to the listener channel as they arrive and
accumulated, refusal deltas are only accumulated, tool-call chunks are fed
to the reassembler; after the stream ends the accumulated refusal is sent
as one event when it is non-empty (src/teacher.rs lines 87-114).  Events
sent on the channel are modelled as an ordered list. -/

/-- Rust `teacher::ResponseEvent` (src/teacher.rs lines 28-34). -/
inductive ResponseEvent where
  | Content : String → ResponseEvent
  | Refusal : String → ResponseEvent
  | ToolCall : ChatCompletionMessageToolCall → ResponseEvent
  | ToolResult : ChatCompletionRequestToolMessage → ResponseEvent
deriving DecidableEq

/-- One streamed delta: the fields of `choice.delta` the loop reads.  A
stream item with no choice (`choices.pop()` returning `None`, handled by
`continue`) is modelled as `none` at the use site. -/
structure StreamChoiceDelta where
  content : Option String
  refusal : Option String
  tool_calls : Option (List ChatCompletionMessageToolCallChunk)
deriving DecidableEq

/-- The loop state of one streamed turn: events sent so far, the running
content buffer `whole_content`, the running refusal buffer `whole_refusal`,
and the tool-call reassembler. -/
abbrev TurnStreamState :=
  List ResponseEvent × String × String × ToolCallStreamManager

/-- One iteration of the `while let Some(result) = stream.next()` loop
(src/teacher.rs lines 90-105): forward and accumulate a content delta,
accumulate a refusal delta, merge tool-call chunks. -/
def streamStep (st : TurnStreamState) (item : Option StreamChoiceDelta) :
    TurnStreamState :=
  match item with
  | none => st
  | some delta =>
    let (events, whole_content, whole_refusal, mgr) := st
    let (events, whole_content) :=
      match delta.content with
      | some content =>
        (events ++ [ResponseEvent.Content content], whole_content ++ content)
      | none => (events, whole_content)
    let whole_refusal :=
      match delta.refusal with
      | some refusal => whole_refusal ++ refusal
      | none => whole_refusal
    let mgr :=
      match delta.tool_calls with
      | some chunks => mgr.merge_chunks chunks
      | none => mgr
    (events, whole_content, whole_refusal, mgr)

/-- The whole stream-consuming phase of one turn (src/teacher.rs lines
87-114): run the loop from an empty state, then send the accumulated refusal
as a single event when it is non-empty. -/
def runTurnStream (items : List (Option StreamChoiceDelta)) : TurnStreamState :=
  let st := items.foldl streamStep ([], "", "", ToolCallStreamManager.new)
  (st.1 ++ (if st.2.2.1.isEmpty then [] else [ResponseEvent.Refusal st.2.2.1]),
    st.2.1, st.2.2.1, st.2.2.2)

/-- Concatenation of a list of strings, used to state what the running
buffers accumulate. -/
def concatStrings : List String → String
  | [] => ""
  | s :: rest => s ++ concatStrings rest

/-! ## Chapter progress merging (src/teacher/messages/progress.rs) -/

/-- Rust `ChapterStatus` (src/teacher/messages/progress.rs lines 17-23). -/
inductive ChapterStatus where
  | NotStarted
  | InProgress
  | Completed
deriving DecidableEq

/-- Rust `ChapterObjective` (src/teacher/messages/progress.rs lines 43-57).
`update_time : OffsetDateTime` is modelled as a `Nat` timestamp; `Ord`,
`PartialEq` and `Eq` on the Rust type compare the `description` field
only (lines 58-73). -/
structure ChapterObjective where
  description : String
  completed : Bool
  progress : Option String
  next_step : Option String
  update_time : Nat
deriving DecidableEq

/-- Rust `BTreeSet<ChapterObjective>::insert`, where the element order is
the `Ord` instance comparing descriptions: the set is a list sorted by
description (lexicographic order on the character sequence, stated on
`String.data` to keep it computable), and per the documented
`BTreeSet::insert` semantics, if the set already contains an element with an
equal key the set is returned unchanged ("the entry is not updated");
otherwise the new element is placed at its sorted position. -/
def btreeSetInsert (o : ChapterObjective) :
    List ChapterObjective → List ChapterObjective
  | [] => [o]
  | x :: xs =>
    if o.description.data < x.description.data then o :: x :: xs
    else if o.description = x.description then x :: xs
    else x :: btreeSetInsert o xs

/-- Rust `ChapterProgress` (src/teacher/messages/progress.rs lines 76-87), its
objective set modelled as a description-sorted list. -/
structure ChapterProgress where
  status : ChapterStatus
  objectives : List ChapterObjective
  update_time : Nat
deriving DecidableEq

/-- Rust `ChapterProgress::merge` (src/teacher/messages/progress.rs lines
100-110): take the incoming status, clear the progress/next-step notes of
every incoming objective that is marked completed, insert each incoming
objective into the existing `BTreeSet`, and take the incoming update time. -/
def ChapterProgress.merge (self other : ChapterProgress) : ChapterProgress :=
  { status := other.status
    objectives := other.objectives.foldl (fun acc objective =>
      let objective :=
        if objective.completed then
          { objective with progress := none, next_step := none }
        else objective
      btreeSetInsert objective acc) self.objectives
    update_time := other.update_time }

/-! ## Bounded Conversation Window (src/teacher/messages.rs, lines 293-493)

`MessagesManager` over an abstract message type `M` with token estimate
`tok : M → Nat` (see the header note on `llm_fn`).  Database writes/reads
and the LLM summarization are external effects; each operation takes the
outcome of the effects it performs:

* `dbOk : Bool` — whether the `history_message` insert succeeds;
* `env : Option M` — the combined outcome of the `save_progress` path
  (the LLM `summarize_progress` call, the `update_book_progress` write and
  the `get_progress` read): `none` is a failure of any of them, `some m`
  delivers the freshly rendered book-progress block `m`;
* `newStudyPlan / newProgress : Option M` — likewise for the block reread
  from the database by `update_study_plan` / `save_to_book_progress`.

Every operation returns its final state (the `&mut self` contents when the
Rust method returns) paired with `none` for `Ok(())` or `some e` for an
error; `Err.usizeUnderflow` stands for the debug-build panic of an
underflowing `usize` subtraction. -/

/-- The error outcomes of the window operations. -/
inductive Err where
  | overBudget
  | dbError
  | blockTooLarge
  | usizeUnderflow
deriving DecidableEq

/-- Rust `MessagesManager` (src/teacher/messages.rs lines 293-303), without the
database handle. -/
structure MessagesManager (M : Type) where
  instruction : M
  book_info : M
  study_plan : M
  book_progress : M
  saved_conversation : List M
  unsaved_conversation : List M
  token_count : Nat
  token_budget : Nat
deriving DecidableEq

/-- The `while self.token_count > self.token_budget` loop of
`clean_saved_messages_only` (src/teacher/messages.rs lines 471-481), acting
on the reversed saved conversation so that `Vec::pop`, which removes the
last (most recently appended) element, is head removal.  When the vector is
exhausted while still over budget the method bails; an underflowing
`token_count` subtraction is the debug panic `Err.usizeUnderflow`. -/
def cleanLoop {M : Type} (tok : M → Nat) (token_budget : Nat) :
    List M → Nat → (List M × Nat) × Option Err
  | rev, token_count =>
    if token_count > token_budget then
      match rev with
      | [] => (([], token_count), some Err.overBudget)
      | message :: rest =>
        if tok message > token_count then
          ((rest, token_count), some Err.usizeUnderflow)
        else cleanLoop tok token_budget rest (token_count - tok message)
    else ((rev, token_count), none)

/-- Rust `MessagesManager::clean_saved_messages_only` (src/teacher/messages.rs
lines 470-483). -/
def MessagesManager.clean_saved_messages_only {M : Type} (tok : M → Nat)
    (s : MessagesManager M) : MessagesManager M × Option Err :=
  let r := cleanLoop tok s.token_budget s.saved_conversation.reverse s.token_count
  ({ s with saved_conversation := r.1.1.reverse, token_count := r.1.2 }, r.2)

/-- Rust `MessagesManager::save_to_book_progress` (src/teacher/messages.rs lines
446-461): persist the progress and reread the rendered block (`newProgress`,
`none` on database failure), move the unsaved conversation to the saved one,
swap in the new block, adjust the token count by the unsigned difference
`new_progress_token - old_progress_token`, trim, and finally fail if the new
block alone exceeds a quarter of the budget. -/
def MessagesManager.save_to_book_progress {M : Type} (tok : M → Nat)
    (s : MessagesManager M) (newProgress : Option M) :
    MessagesManager M × Option Err :=
  match newProgress with
  | none => (s, some Err.dbError)
  | some book_progress =>
    let s := { s with
      saved_conversation := s.saved_conversation ++ s.unsaved_conversation
      unsaved_conversation := [] }
    let old_progress_token := tok s.book_progress
    let new_progress_token := tok book_progress
    let s := { s with book_progress := book_progress }
    if new_progress_token < old_progress_token then
      (s, some Err.usizeUnderflow)
    else
      let s := { s with
        token_count := s.token_count + (new_progress_token - old_progress_token) }
      let r := s.clean_saved_messages_only tok
      (r.1,
        match r.2 with
        | some e => some e
        | none =>
          if new_progress_token > r.1.token_budget / 4 then
            some Err.blockTooLarge
          else none)

/-- Rust `MessagesManager::save_progress` (src/teacher/messages.rs lines
463-468): summarize the current messages through the LLM and save the
result; `env` carries the outcome of the external calls. -/
def MessagesManager.save_progress {M : Type} (tok : M → Nat) (env : Option M)
    (s : MessagesManager M) : MessagesManager M × Option Err :=
  s.save_to_book_progress tok env

/-- Rust `MessagesManager::clean_conversation_messages` (src/teacher/messages.rs
lines 485-492): try the plain trim; when it bails, fall back to saving
progress (which moves the unsaved messages into the saved vector and trims
again).  A panic inside the trim loop is not caught by the fallback. -/
def MessagesManager.clean_conversation_messages {M : Type} (tok : M → Nat)
    (env : Option M) (s : MessagesManager M) : MessagesManager M × Option Err :=
  let r := s.clean_saved_messages_only tok
  match r.2 with
  | none => (r.1, none)
  | some Err.usizeUnderflow => (r.1, some Err.usizeUnderflow)
  | some _ => r.1.save_progress tok env

/-- Rust `MessagesManager::add_conversation_message` (src/teacher/messages.rs
lines 435-444), in source order: the token count is increased first, then
the message is persisted (`dbOk`, failing with `?` on a database error),
then the message is pushed onto the unsaved conversation, then the window
is trimmed. -/
def MessagesManager.add_conversation_message {M : Type} (tok : M → Nat)
    (env : Option M) (dbOk : Bool) (s : MessagesManager M) (message : M) :
    MessagesManager M × Option Err :=
  let s := { s with token_count := s.token_count + tok message }
  if dbOk then
    let s := { s with
      unsaved_conversation := s.unsaved_conversation ++ [message] }
    s.clean_conversation_messages tok env
  else (s, some Err.dbError)

/-- Rust `MessagesManager::update_study_plan` (src/teacher/messages.rs lines
393-405): persist and reread the plan (`newStudyPlan`, `none` on database
failure), swap it in, adjust the token count by the unsigned difference
`new_plan_token - old_plan_token`, trim, and finally fail if the new plan
alone exceeds a quarter of the budget. -/
def MessagesManager.update_study_plan {M : Type} (tok : M → Nat)
    (env : Option M) (s : MessagesManager M) (newStudyPlan : Option M) :
    MessagesManager M × Option Err :=
  match newStudyPlan with
  | none => (s, some Err.dbError)
  | some study_plan =>
    let new_plan_token := tok study_plan
    let old_plan_token := tok s.study_plan
    let s := { s with study_plan := study_plan }
    if new_plan_token < old_plan_token then
      (s, some Err.usizeUnderflow)
    else
      let s := { s with
        token_count := s.token_count + (new_plan_token - old_plan_token) }
      let r := s.clean_conversation_messages tok env
      (r.1,
        match r.2 with
        | some e => some e
        | none =>
          if new_plan_token > r.1.token_budget / 4 then
            some Err.blockTooLarge
          else none)

/-- Rust `MessagesManager::update_token_count` (src/teacher/messages.rs lines
407-420): the total is the sum of the four fixed blocks plus both
conversation vectors. -/
def MessagesManager.update_token_count {M : Type} (tok : M → Nat)
    (s : MessagesManager M) : MessagesManager M :=
  { s with token_count :=
      (tok s.instruction + tok s.book_info + tok s.study_plan
        + tok s.book_progress + (s.saved_conversation.map tok).sum
        + (s.unsaved_conversation.map tok).sum) }

/-- Rust `MessagesManager::get_token_count` (src/teacher/messages.rs lines
422-424). -/
def MessagesManager.get_token_count {M : Type} (s : MessagesManager M) : Nat :=
  s.token_count

/-- Rust `MessagesManager::get_messages` (src/teacher/messages.rs lines
380-391). -/
def MessagesManager.get_messages {M : Type} (s : MessagesManager M) : List M :=
  [s.instruction, s.book_info, s.study_plan] ++ s.saved_conversation
    ++ [s.book_progress] ++ s.unsaved_conversation

/-- Rust `MessagesManager::new` (src/teacher/messages.rs lines 325-378).  The
instruction and the blocks read from the database are parameters.  The book
info is serialized (`book_info_str_tokens` tokens); if that alone exceeds a
quarter of the budget the chapter infos are eliminated, leaving the reduced
rendering.  The chosen book-info block, the study plan and the book progress
are each checked against a quarter of the budget; the instruction block is
not checked.  Then the token count is computed and the window trimmed. -/
def MessagesManager.new {M : Type} (tok : M → Nat) (env : Option M)
    (instruction book_info_full book_info_reduced : M)
    (book_info_str_tokens : Nat) (study_plan book_progress : M)
    (saved_conversation unsaved_conversation : List M)
    (token_budget : Nat) : Except Err (MessagesManager M) :=
  let book_info :=
    if book_info_str_tokens > token_budget / 4 then book_info_reduced
    else book_info_full
  if tok book_info > token_budget / 4 then Except.error Err.blockTooLarge
  else if tok study_plan > token_budget / 4 then Except.error Err.blockTooLarge
  else if tok book_progress > token_budget / 4 then Except.error Err.blockTooLarge
  else
    let s : MessagesManager M :=
      ⟨instruction, book_info, study_plan, book_progress,
        saved_conversation, unsaved_conversation, 0, token_budget⟩
    let s := s.update_token_count tok
    let r := s.clean_conversation_messages tok env
    match r.2 with
    | none => Except.ok r.1
    | some e => Except.error e

/-- Release-build `usize` subtraction: `a - b` wrapping around 2 to the
64. -/
def wrappingSub (a b : Nat) : Nat :=
  (a + (2 ^ 64 - b % 2 ^ 64)) % 2 ^ 64

/-! ## Theorems -/

/-! ### Helper lemmas about the trim loop -/

/-- When the trim loop returns without error, the final token count is
within budget (the loop guard has just failed). -/
theorem cleanLoop_ok_le {M : Type} (tok : M → Nat) (b : Nat) :
    ∀ (rev : List M) (tc : Nat),
      (cleanLoop tok b rev tc).2 = none → (cleanLoop tok b rev tc).1.2 ≤ b := by
  intro rev
  induction rev with
  | nil =>
    intro tc h
    rw [cleanLoop] at *
    by_cases hgt : tc > b
    · simp [hgt] at h
    · simp [hgt]
      omega
  | cons m rest ih =>
    intro tc h
    rw [cleanLoop] at *
    by_cases hgt : tc > b
    · simp only [if_pos hgt] at h ⊢
      by_cases hu : tok m > tc
      · simp [hu] at h
      · simp only [if_neg hu] at h ⊢
        exact ih _ h
    · simp [hgt]
      omega

/-- The trim loop only ever removes a prefix of the reversed vector: the
surviving list is a suffix (`drop`) of the input. -/
theorem cleanLoop_drop {M : Type} (tok : M → Nat) (b : Nat) :
    ∀ (rev : List M) (tc : Nat),
      ∃ k, (cleanLoop tok b rev tc).1.1 = rev.drop k := by
  intro rev
  induction rev with
  | nil =>
    intro tc
    rw [cleanLoop]
    by_cases hgt : tc > b <;> simp [hgt]
  | cons m rest ih =>
    intro tc
    rw [cleanLoop]
    by_cases hgt : tc > b
    · simp only [if_pos hgt]
      by_cases hu : tok m > tc
      · exact ⟨1, by simp [hu]⟩
      · obtain ⟨k, hk⟩ := ih (tc - tok m)
        exact ⟨k + 1, by simp [hu, hk]⟩
    · exact ⟨0, by simp [hgt]⟩

/-- Lemma about `clean_saved_messages_only`, stated on the window: a successful trim
leaves a prefix of the saved conversation, does not touch the unsaved
conversation or the fixed blocks or the budget, and lands within budget. -/
theorem clean_saved_ok {M : Type} (tok : M → Nat) (s : MessagesManager M)
    (h : (s.clean_saved_messages_only tok).2 = none) :
    (∃ k, (s.clean_saved_messages_only tok).1.saved_conversation
        = s.saved_conversation.take k) ∧
    (s.clean_saved_messages_only tok).1.unsaved_conversation
        = s.unsaved_conversation ∧
    (s.clean_saved_messages_only tok).1.token_budget = s.token_budget ∧
    (s.clean_saved_messages_only tok).1.token_count ≤ s.token_budget := by
  unfold MessagesManager.clean_saved_messages_only at *
  refine ⟨?_, rfl, rfl, ?_⟩
  · obtain ⟨k, hk⟩ :=
      cleanLoop_drop tok s.token_budget s.saved_conversation.reverse s.token_count
    refine ⟨s.saved_conversation.length - k, ?_⟩
    simp only [hk]
    rw [← List.rdrop_eq_reverse_drop_reverse, List.rdrop]
  · exact cleanLoop_ok_le tok s.token_budget s.saved_conversation.reverse
      s.token_count h

/-- A successful trim lands within the (unchanged) budget of the result. -/
theorem clean_saved_ok_le {M : Type} (tok : M → Nat) (s : MessagesManager M)
    (h : (s.clean_saved_messages_only tok).2 = none) :
    (s.clean_saved_messages_only tok).1.token_count
      ≤ (s.clean_saved_messages_only tok).1.token_budget := by
  obtain ⟨-, -, hb, hc⟩ := clean_saved_ok tok s h
  omega

/-- A successful `save_to_book_progress` ends within budget. -/
theorem save_to_book_progress_ok_le {M : Type} (tok : M → Nat)
    (s : MessagesManager M) (np : Option M)
    (h : (s.save_to_book_progress tok np).2 = none) :
    (s.save_to_book_progress tok np).1.token_count
      ≤ (s.save_to_book_progress tok np).1.token_budget := by
  rcases np with _ | m
  · simp [MessagesManager.save_to_book_progress] at h
  · by_cases hu : tok m < tok s.book_progress
    · simp [MessagesManager.save_to_book_progress, hu] at h
    · simp only [MessagesManager.save_to_book_progress, if_neg hu] at h ⊢
      split at h
      · exact absurd h (by simp)
      · next heq => exact clean_saved_ok_le tok _ heq

/-- A successful `clean_conversation_messages` ends within budget. -/
theorem clean_conversation_ok_le {M : Type} (tok : M → Nat) (env : Option M)
    (s : MessagesManager M)
    (h : (s.clean_conversation_messages tok env).2 = none) :
    (s.clean_conversation_messages tok env).1.token_count
      ≤ (s.clean_conversation_messages tok env).1.token_budget := by
  rcases hr : (s.clean_saved_messages_only tok).2 with _ | e
  · simp only [MessagesManager.clean_conversation_messages, hr] at h ⊢
    exact clean_saved_ok_le tok s hr
  · rcases e with _ | _ | _ | _ <;>
      simp only [MessagesManager.clean_conversation_messages,
        MessagesManager.save_progress, hr] at h ⊢
    · exact save_to_book_progress_ok_le tok _ env h
    · exact save_to_book_progress_ok_le tok _ env h
    · exact save_to_book_progress_ok_le tok _ env h
    · simp at h

/-! ### Claims about the Streaming Call Reassembler -/

/-- Claim C5: Feeding `merge_chunk` a first fragment carrying id, name and an
initial argument string, followed by two fragments carrying only further
argument text for the same slot, yields on `get_tool_calls` exactly one tool
call whose id and name come from the first fragment and whose arguments are
the concatenation of the three fragments in arrival order. -/
theorem C5_fragment_concatenation (idx : Nat) (id name a1 a2 a3 : String) :
    (((ToolCallStreamManager.new.merge_chunk
            ⟨idx, some id, some ⟨some name, some a1⟩⟩).merge_chunk
        ⟨idx, none, some ⟨none, some a2⟩⟩).merge_chunk
        ⟨idx, none, some ⟨none, some a3⟩⟩).get_tool_calls
      = [⟨id, ⟨name, a1 ++ a2 ++ a3⟩⟩] := by
  simp [ToolCallStreamManager.new, ToolCallStreamManager.merge_chunk,
    ToolCallStreamManager.get_tool_calls, List.lookup, String.append_assoc]

/-- Claim C6: A fragment for a slot not seen before that is not self-sufficient
(missing its id, its name, or an initial argument string) is discarded:
`merge_chunk` leaves the reassembler state unchanged. -/
theorem C6_incomplete_first_fragment_discarded
    (st : ToolCallStreamManager) (chunk : ChatCompletionMessageToolCallChunk)
    (hvacant : st.lookup chunk.index = none)
    (hincomplete : chunk.isSelfSufficient = false) :
    st.merge_chunk chunk = st := by
  unfold ToolCallStreamManager.merge_chunk
  rw [hvacant]
  rcases chunk with ⟨index, id, function⟩
  rcases id with _ | id
  · rcases function with _ | ⟨_ | n, _ | a⟩ <;> rfl
  · rcases function with _ | ⟨_ | n, _ | a⟩ <;>
      simp_all [ChatCompletionMessageToolCallChunk.isSelfSufficient]

/-- Witness for C6: a first-sight fragment carrying name and arguments but no
id is discarded. -/
theorem C6_incomplete_first_fragment_discarded_witness :
    ToolCallStreamManager.new.lookup 0 = none ∧
    ChatCompletionMessageToolCallChunk.isSelfSufficient
      ⟨0, none, some ⟨some "f", some "x"⟩⟩ = false ∧
    ToolCallStreamManager.new.merge_chunk ⟨0, none, some ⟨some "f", some "x"⟩⟩
      = ToolCallStreamManager.new :=
  ⟨rfl, rfl, C6_incomplete_first_fragment_discarded ToolCallStreamManager.new
    ⟨0, none, some ⟨some "f", some "x"⟩⟩ rfl rfl⟩

/-! ### Claim about the Tool Registry -/

/-- Claim C7: A batch containing one call to a registered tool and one call to
an unregistered name completes without error and yields exactly two result
messages, each paired with its originating call id: the registered tool's
genuine output and a literal "Tool not found" message for the unknown name,
produced without invoking any tool. -/
theorem C7_batch_with_unknown_tool (tm : ToolManager)
    (id1 id2 goodName badName args1 args2 output : String)
    (f : String → Except String String)
    (hfound : tm.lookup goodName = some f)
    (hmissing : tm.lookup badName = none)
    (hrun : f args1 = Except.ok output) :
    ToolManager.call tm [⟨id1, ⟨goodName, args1⟩⟩, ⟨id2, ⟨badName, args2⟩⟩]
      = [⟨"Tool not found", id2⟩, ⟨output, id1⟩] := by
  simp [ToolManager.call, hfound, hmissing, hrun]

/-- Witness for C7 at a concrete one-tool registry and a concrete batch. -/
theorem C7_batch_with_unknown_tool_witness :
    List.lookup "echo" [("echo", echoTool)] = some echoTool ∧
    List.lookup "ghost" [("echo", echoTool)] = none ∧
    echoTool "hi" = Except.ok "hi!" ∧
    ToolManager.call [("echo", echoTool)]
        [⟨"1", ⟨"echo", "hi"⟩⟩, ⟨"2", ⟨"ghost", "x"⟩⟩]
      = [⟨"Tool not found", "2"⟩, ⟨"hi!", "1"⟩] :=
  ⟨rfl, rfl, rfl,
    C7_batch_with_unknown_tool [("echo", echoTool)] "1" "2" "echo" "ghost"
      "hi" "x" "hi!" echoTool rfl rfl rfl⟩

/-! ### Claim about the streamed model turn -/

/-- Invariant of the stream loop: the events sent are the previous events
followed by one `Content` event per content delta in arrival order, and the
refusal buffer accumulates the refusal deltas in order without sending
anything. -/
theorem streamStep_foldl (items : List (Option StreamChoiceDelta)) :
    ∀ (evs : List ResponseEvent) (wc wr : String) (mgr : ToolCallStreamManager),
      (items.foldl streamStep (evs, wc, wr, mgr)).1
          = evs ++ (items.filterMap (fun it =>
              it.bind StreamChoiceDelta.content)).map ResponseEvent.Content ∧
      (items.foldl streamStep (evs, wc, wr, mgr)).2.2.1
          = wr ++ concatStrings (items.filterMap (fun it =>
              it.bind StreamChoiceDelta.refusal)) := by
  induction items with
  | nil =>
    intro evs wc wr mgr
    simp [concatStrings]
  | cons item rest ih =>
    intro evs wc wr mgr
    rcases item with _ | ⟨c, r, t⟩
    · simpa [streamStep] using ih evs wc wr mgr
    · rcases c with _ | c <;> rcases r with _ | r <;>
        simp [streamStep, ih, concatStrings, String.append_assoc]

/-- Claim C9: During one streamed turn the events sent up to and including the
refusal flush are exactly one `Content` event per content delta, in arrival
order (each forwarded once, on arrival), followed by a single `Refusal`
event carrying the accumulated refusal text if and only if that text is
non-empty — in particular no refusal event is sent while the stream is
still running, and the accumulated refusal is the concatenation of the
refusal deltas in arrival order. -/
theorem C9_stream_event_order (items : List (Option StreamChoiceDelta)) :
    (runTurnStream items).1
        = (items.filterMap (fun it =>
            it.bind StreamChoiceDelta.content)).map ResponseEvent.Content
          ++ (if (runTurnStream items).2.2.1.isEmpty then []
              else [ResponseEvent.Refusal (runTurnStream items).2.2.1]) ∧
    (runTurnStream items).2.2.1
        = concatStrings (items.filterMap (fun it =>
            it.bind StreamChoiceDelta.refusal)) := by
  obtain ⟨h1, h2⟩ :=
    streamStep_foldl items [] "" "" ToolCallStreamManager.new
  simp only [runTurnStream]
  rw [h1, h2]
  simp

/-! ### Claim about chapter progress merging -/

/-- Claim C3, failing input:  Merging an update that marks the existing
objective "o1" as completed leaves the stale objective in place: because
`BTreeSet::insert` does not update an element that compares equal (equality
is by description), the result still carries `completed = false` and the old
progress/next-step notes, with only the status and update time taken from
the update. -/
theorem C3_merge_keeps_stale_objective :
    ChapterProgress.merge
        ⟨ChapterStatus.InProgress,
          [⟨"o1", false, some "halfway", some "reread", 0⟩], 0⟩
        ⟨ChapterStatus.InProgress, [⟨"o1", true, some "done", none, 5⟩], 5⟩
      = ⟨ChapterStatus.InProgress,
          [⟨"o1", false, some "halfway", some "reread", 0⟩], 5⟩ := by
  decide

/-! ### Claims about the Bounded Conversation Window -/

/-- Claim C1: Whenever `add_conversation_message` returns `Ok`, the reported
token count of the resulting window is within the configured budget —
regardless of the starting state, the message, the token estimate, and the
outcomes of the external effects. -/
theorem C1_append_ok_within_budget {M : Type} (tok : M → Nat) (env : Option M)
    (dbOk : Bool) (s : MessagesManager M) (message : M)
    (s' : MessagesManager M)
    (h : s.add_conversation_message tok env dbOk message = (s', none)) :
    s'.get_token_count ≤ s'.token_budget := by
  unfold MessagesManager.add_conversation_message at h
  rcases dbOk with _ | _
  · simp at h
  · rw [if_pos rfl] at h
    have h2 : (MessagesManager.clean_conversation_messages tok env _).2 = none :=
      congrArg Prod.snd h
    have hle := clean_conversation_ok_le tok env _ h2
    rw [h] at hle
    exact hle

/-- Witness for C1: a concrete successful append stays within budget. -/
theorem C1_append_ok_within_budget_witness :
    ((⟨1, 1, 1, 1, [], [], 4, 100⟩ : MessagesManager Nat).add_conversation_message
        id none true 5
      = (⟨1, 1, 1, 1, [], [5], 9, 100⟩, none)) ∧
    (⟨1, 1, 1, 1, [], [5], 9, 100⟩ : MessagesManager Nat).get_token_count ≤ 100 :=
  ⟨rfl, C1_append_ok_within_budget id none true ⟨1, 1, 1, 1, [], [], 4, 100⟩ 5
    ⟨1, 1, 1, 1, [], [5], 9, 100⟩ rfl⟩

/-- Claim C2, failing input:  Starting over budget with saved messages
`[10, 11]` (older part of the tail) and unsaved message `[12]` (the most
recently appended tail message), the trim loop removes `11` and then `10`
and returns successfully while `12` survives: the removed messages are not
a suffix of the tail `[10, 11, 12]` in appended order — equivalently, the
surviving tail `[12]` is not a prefix of the original tail — and the single
most-recently-appended message is not the one evicted. -/
theorem C2_counterexample :
    ((⟨0, 0, 0, 0, [10, 11], [12], 33, 20⟩ :
        MessagesManager Nat).clean_saved_messages_only id
      = (⟨0, 0, 0, 0, [], [12], 12, 20⟩, none)) ∧
    (∀ k : Nat, List.take k [10, 11, 12] ≠ ([] ++ [12] : List Nat)) := by
  refine ⟨rfl, ?_⟩
  intro k
  match k with
  | 0 => decide
  | 1 => decide
  | 2 => decide
  | (n + 3) =>
    rw [List.take_of_length_le (by simp)]
    decide

/-- Claim C2, amended:  A successful trim removes messages only from the
newest end of the *saved* portion of the tail: the surviving saved
conversation is a prefix of the original one (so the removed messages are
exactly a suffix of the saved portion, in appended order), the unsaved
portion is untouched, and the result is within budget. -/
theorem C2_trim_removes_saved_suffix {M : Type} (tok : M → Nat)
    (s s' : MessagesManager M)
    (h : s.clean_saved_messages_only tok = (s', none)) :
    (∃ k, s'.saved_conversation = s.saved_conversation.take k) ∧
    s'.unsaved_conversation = s.unsaved_conversation ∧
    s'.token_count ≤ s'.token_budget := by
  have h2 : (s.clean_saved_messages_only tok).2 = none := by rw [h]
  obtain ⟨⟨k, hk⟩, hun, hb, hc⟩ := clean_saved_ok tok s h2
  rw [h] at hk hun hb hc
  exact ⟨⟨k, hk⟩, hun, by dsimp only at hb hc ⊢; omega⟩

/-- Witness for C2 (amended) at the same concrete over-budget window. -/
theorem C2_trim_removes_saved_suffix_witness :
    ((⟨0, 0, 0, 0, [10, 11], [12], 33, 20⟩ :
        MessagesManager Nat).clean_saved_messages_only id
      = (⟨0, 0, 0, 0, [], [12], 12, 20⟩, none)) ∧
    ((∃ k, ([] : List Nat) = [10, 11].take k) ∧
      ([12] : List Nat) = [12] ∧ (12 : Nat) ≤ 20) :=
  ⟨rfl, C2_trim_removes_saved_suffix id ⟨0, 0, 0, 0, [10, 11], [12], 33, 20⟩
    ⟨0, 0, 0, 0, [], [12], 12, 20⟩ rfl⟩

/-- Claim C4, failing input:  A window whose instruction block alone costs 11
tokens against a budget of 40 (so more than `budget / 4 = 10`) is
constructed successfully: `MessagesManager::new` never checks the
instruction block. -/
theorem C4_counterexample :
    (MessagesManager.new (M := Nat) id none 11 1 1 0 1 1 [] [] 40
      = Except.ok ⟨11, 1, 1, 1, [], [], 14, 40⟩) ∧ 40 / 4 < 11 :=
  ⟨rfl, by norm_num⟩

/-- Claim C4, amended:  Construction checks the chosen book-info block, the
study-plan block and the book-progress block against a quarter of the
budget and fails if any of them exceeds it; the instruction block is not
checked (see the failing input). -/
theorem C4_new_checks_three_blocks {M : Type} (tok : M → Nat) (env : Option M)
    (instruction book_info_full book_info_reduced : M)
    (book_info_str_tokens : Nat) (study_plan book_progress : M)
    (saved unsaved : List M) (token_budget : Nat) (s' : MessagesManager M)
    (h : MessagesManager.new tok env instruction book_info_full
        book_info_reduced book_info_str_tokens study_plan book_progress
        saved unsaved token_budget = Except.ok s') :
    tok (if book_info_str_tokens > token_budget / 4 then book_info_reduced
        else book_info_full) ≤ token_budget / 4 ∧
    tok study_plan ≤ token_budget / 4 ∧
    tok book_progress ≤ token_budget / 4 := by
  simp only [MessagesManager.new] at h
  split at h <;> rename_i hbi
  · rw [if_pos hbi]
    split at h <;> rename_i hc1
    · exact absurd h (by simp)
    · split at h <;> rename_i hc2
      · exact absurd h (by simp)
      · split at h <;> rename_i hc3
        · exact absurd h (by simp)
        · exact ⟨by omega, by omega, by omega⟩
  · rw [if_neg hbi]
    split at h <;> rename_i hc1
    · exact absurd h (by simp)
    · split at h <;> rename_i hc2
      · exact absurd h (by simp)
      · split at h <;> rename_i hc3
        · exact absurd h (by simp)
        · exact ⟨by omega, by omega, by omega⟩

/-- Witness for C4 (amended) at a concrete successful construction. -/
theorem C4_new_checks_three_blocks_witness :
    (MessagesManager.new (M := Nat) id none 1 2 3 0 4 5 [] [] 40
      = Except.ok ⟨1, 2, 4, 5, [], [], 12, 40⟩) ∧
    (id (if 0 > 40 / 4 then 3 else 2) ≤ 40 / 4 ∧ id 4 ≤ 40 / 4 ∧
      id 5 ≤ 40 / 4) :=
  ⟨rfl, C4_new_checks_three_blocks id none 1 2 3 0 4 5 [] [] 40
    ⟨1, 2, 4, 5, [], [], 12, 40⟩ rfl⟩

/-- Claim C8, failing input:  With a failing persistence write, appending a
5-token message to a window of 7 tokens returns the database error with the
in-memory token count already increased to 12: the state after the failed
append differs from the state before it. -/
theorem C8_counterexample :
    ((⟨0, 0, 0, 0, [], [], 7, 100⟩ : MessagesManager Nat).add_conversation_message
        id none false 5
      = (⟨0, 0, 0, 0, [], [], 12, 100⟩, some Err.dbError)) ∧
    (⟨0, 0, 0, 0, [], [], 12, 100⟩ : MessagesManager Nat)
      ≠ ⟨0, 0, 0, 0, [], [], 7, 100⟩ :=
  ⟨rfl, by decide⟩

/-- Claim C8, amended:  The message is persisted before the tail is mutated,
but the token count is increased before the persistence write: when the
write fails, the conversation vectors and the fixed blocks are exactly as
before the append, while the token count has already been increased by the
message's estimate. -/
theorem C8_persist_failure_keeps_tail {M : Type} (tok : M → Nat)
    (env : Option M) (s : MessagesManager M) (message : M) :
    s.add_conversation_message tok env false message
      = ({ s with token_count := s.token_count + tok message },
          some Err.dbError) := rfl

/-- Claim C10: The token-count adjustments of `update_study_plan` and
`save_to_book_progress` add the unsigned difference of the new and old
block estimates: whenever the new block is strictly smaller than the one it
replaces, the `usize` subtraction underflows — the debug-build panic is the
`Err.usizeUnderflow` outcome of both operations, and the release-build
subtraction wraps to the huge value 2 to the 64 minus the real decrease
instead of that difference — so the adjustment is only well-defined under
the precondition `new ≥ old`. -/
theorem C10_token_adjust_underflow {M : Type} (tok : M → Nat)
    (env : Option M) (s : MessagesManager M) (m : M)
    (h1 : tok m < tok s.study_plan) (h2 : tok m < tok s.book_progress)
    (h3 : tok s.study_plan < 2 ^ 64) :
    (s.update_study_plan tok env (some m)).2 = some Err.usizeUnderflow ∧
    (s.save_to_book_progress tok (some m)).2 = some Err.usizeUnderflow ∧
    wrappingSub (tok m) (tok s.study_plan)
      = 2 ^ 64 - (tok s.study_plan - tok m) := by
  refine ⟨?_, ?_, ?_⟩
  · simp [MessagesManager.update_study_plan, if_pos h1]
  · simp [MessagesManager.save_to_book_progress, if_pos h2]
  · unfold wrappingSub
    rw [Nat.mod_eq_of_lt h3, Nat.mod_eq_of_lt (by omega)]
    omega

/-- Witness for C10: shrinking the study plan (or progress block) from 5
(resp. 7) tokens to 1 token panics in debug semantics, and the wrapped
release subtraction is astronomically far from a decrease by 4. -/
theorem C10_token_adjust_underflow_witness :
    (id 1 < id 5 ∧ id 1 < id 7 ∧ id 5 < 2 ^ 64) ∧
    ((⟨0, 0, 5, 7, [], [], 50, 100⟩ : MessagesManager Nat).update_study_plan
        id none (some 1)).2 = some Err.usizeUnderflow ∧
    ((⟨0, 0, 5, 7, [], [], 50, 100⟩ : MessagesManager Nat).save_to_book_progress
        id (some 1)).2 = some Err.usizeUnderflow ∧
    wrappingSub (id 1) (id 5) = 2 ^ 64 - (id 5 - id 1) :=
  ⟨⟨by decide, by decide, by decide⟩,
    C10_token_adjust_underflow (M := Nat) id none ⟨0, 0, 5, 7, [], [], 50, 100⟩ 1
      (by decide) (by decide) (by decide)⟩

end AiReader
